import Mathlib

/-! Shallow embedding of the STM32G4 RCC clock-tree configuration routine
(embassy-stm32/src/rcc/g4.rs).  Frequencies are modelled as natural numbers
of Hz (the source wraps a u32 in a Hertz newtype; the data model declares
frequencies representable without overflow, and all values reached on the
paths studied here are far below 2^32).  Rust panics are modelled as the
error cases of an explicit error type; hardware register accesses and
busy-wait polls are modelled as an ordered event trace. -/

namespace G4Rcc

/-- PLL input clock selection, from the source enum PLLSource. -/
inductive PLLSource where
  | HSE (f : Nat)
  | HSI16
deriving DecidableEq, Repr

/-- System clock mux source, from the source enum ClockSrc. -/
inductive ClockSrc where
  | HSE (f : Nat)
  | HSI16
  | PLL (source : PLLSource) (target : Nat)
deriving DecidableEq, Repr

/-- AHB prescaler, from the source enum AHBPrescaler. -/
inductive AHBPrescaler where
  | NotDivided
  | Div2
  | Div4
  | Div8
  | Div16
  | Div64
  | Div128
  | Div256
  | Div512
deriving DecidableEq, Repr

/-- APB prescaler, from the source enum APBPrescaler. -/
inductive APBPrescaler where
  | NotDivided
  | Div2
  | Div4
  | Div8
  | Div16
deriving DecidableEq, Repr

/-- HSI oscillator frequency, 16 MHz. -/
def HSI_FREQ : Nat := 16000000

/-- Hardware code of an APB prescaler, from impl Into of u8 for APBPrescaler. -/
def APBPrescaler.into : APBPrescaler → Nat
  | .NotDivided => 1
  | .Div2 => 0x04
  | .Div4 => 0x05
  | .Div8 => 0x06
  | .Div16 => 0x07

/-- Hardware code of an AHB prescaler, from impl Into of u8 for AHBPrescaler. -/
def AHBPrescaler.into : AHBPrescaler → Nat
  | .NotDivided => 1
  | .Div2 => 0x08
  | .Div4 => 0x09
  | .Div8 => 0x0a
  | .Div16 => 0x0b
  | .Div64 => 0x0c
  | .Div128 => 0x0d
  | .Div256 => 0x0e
  | .Div512 => 0x0f

/-- Clock-tree configuration, from struct Config in the source. -/
structure Config where
  mux : ClockSrc
  ahb_pre : AHBPrescaler
  apb1_pre : APBPrescaler
  apb2_pre : APBPrescaler
  low_power_run : Bool
deriving DecidableEq, Repr

/-- Published frequency plan, from struct Clocks (the set_freqs payload). -/
structure Clocks where
  sys : Nat
  ahb1 : Nat
  ahb2 : Nat
  apb1 : Nat
  apb1_tim : Nat
  apb2 : Nat
  apb2_tim : Nat
deriving DecidableEq, Repr

/-- Failure kinds.  The source aborts via panics and an assert; each abort
site is mapped to the corresponding enumerated error kind of the design
(the plln try_into unwrap gets its own kind, invalidPlln). -/
inductive RccError where
  | invalidVcoInput
  | invalidVcoOutput
  | unachievable48MHzTap
  | invalidDivisorCode
  | invalidPlln
  | lowPowerFrequencyExceeded
deriving DecidableEq, Repr

/-- Encoding of the PLLR divider into its 2-bit code, from fn pllr_flag.
The panic arm is modelled as none. -/
def pllrFlag (pllr : Nat) : Option Nat :=
  match pllr with
  | 2 => some 0
  | 4 => some 1
  | 6 => some 2
  | 8 => some 3
  | _ => none

/-- Encoding of the PLLQ divider into its 2-bit code, from fn pllq_flag.
The panic arm is modelled as none. -/
def pllqFlag (pllq : Nat) : Option Nat :=
  match pllq with
  | 2 => some 0
  | 4 => some 1
  | 6 => some 2
  | 8 => some 3
  | _ => none

/-- A validated PLL plan: the values computed in the PLL arm of init
together with the encoded register fields. -/
structure PllPlan where
  vcoInput : Nat
  pllr : Nat
  plln : Nat
  vcoOutput : Nat
  rOutput : Nat
  pllq : Nat
  pllrF : Nat
  pllqF : Nat
deriving DecidableEq, Repr

/-- PLL input frequency selection (lines 136-139 of the PLL arm). -/
def pllInputFreq (source : PLLSource) : Nat :=
  match source with
  | .HSE f => f
  | .HSI16 => 16000000

/-- The pure PLL frequency solver: the computations and validation panics of
the PLL arm of init (pllm fixed at 4, pllr fixed at 2), including the
divider encodings and the plln-to-u8 conversion evaluated while building
the pllcfgr value.  All of these run before the pllcfgr register write. -/
def pllSolve (pll_input target_freq : Nat) : Except RccError PllPlan :=
  let pllm := 4
  let vco_input := pll_input / pllm
  if vco_input > 16000000 then .error .invalidVcoInput
  else if vco_input < 2660000 then .error .invalidVcoInput
  else
    let pllr := 2
    let plln := target_freq * pllr / vco_input
    let vco_output := vco_input * plln
    let r_output := vco_output / pllr
    if vco_output > 344000000 then .error .invalidVcoOutput
    else if vco_output < 96000000 then .error .invalidVcoOutput
    else if vco_output % 48000000 ≠ 0 then .error .unachievable48MHzTap
    else
      let pllq := vco_output / 48000000
      match pllrFlag pllr, pllqFlag pllq with
      | some rf, some qf =>
        if plln > 255 then .error .invalidPlln
        else .ok ⟨vco_input, pllr, plln, vco_output, r_output, pllq, rf, qf⟩
      | _, _ => .error .invalidDivisorCode

/-- Hardware interactions of init, in program order: register writes and
busy-wait polls (polls are assumed to terminate, as the design assumes
responsive hardware), plus the final publication of the frequency plan. -/
inductive Event where
  | writeCrHsiOn
  | pollHsiRdy
  | writeCrHseOn
  | pollHseRdy
  | writePllCfgr (pllrF pllqF plln pllmF pllsrc : Nat)
  | writeCrPllOn (hseOn : Bool)
  | pollPllRdy
  | writeCcipr (clk48sel : Nat)
  | writeCfgr (sw hpre ppre1 ppre2 : Nat)
  | pollSws (sw : Nat)
  | writePwrCr1Lpr
  | publish (c : Clocks)
deriving DecidableEq, Repr

/-- Whether an event is a hardware register write (polls and the frequency
publication are not). -/
def Event.isRegWrite : Event → Bool
  | .writeCrHsiOn => true
  | .writeCrHseOn => true
  | .writePllCfgr _ _ _ _ _ => true
  | .writeCrPllOn _ => true
  | .writeCcipr _ => true
  | .writeCfgr _ _ _ _ => true
  | .writePwrCr1Lpr => true
  | _ => false

def Event.isWritePllCfgr : Event → Bool
  | .writePllCfgr _ _ _ _ _ => true
  | _ => false

def Event.isWriteCrHseOn : Event → Bool
  | .writeCrHseOn => true
  | _ => false

def Event.isPollHseRdy : Event → Bool
  | .pollHseRdy => true
  | _ => false

def Event.isWriteCrPllOn : Event → Bool
  | .writeCrPllOn _ => true
  | _ => false

def Event.isPollPllRdy : Event → Bool
  | .pollPllRdy => true
  | _ => false

def Event.isWriteCfgr : Event → Bool
  | .writeCfgr _ _ _ _ => true
  | _ => false

def Event.isPollSws : Event → Bool
  | .pollSws _ => true
  | _ => false

def Event.isWritePwrCr1Lpr : Event → Bool
  | .writePwrCr1Lpr => true
  | _ => false

def Event.isPublish : Event → Bool
  | .publish _ => true
  | _ => false

/-- Whether some event satisfying p occurs strictly before some event
satisfying q in the trace. -/
def occursBefore (p q : Event → Bool) : List Event → Bool
  | [] => false
  | e :: tr => (p e && tr.any q) || occursBefore p q tr

/-- The clock source activation phase of init (the match on config.mux,
lines 120-220): enable the selected oscillator or program and lock the
PLL; returns the trace of hardware interactions and, on success, the
system clock frequency with its 2-bit source-select code. -/
def activate (mux : ClockSrc) : List Event × Except RccError (Nat × Nat) :=
  match mux with
  | .HSI16 => ([Event.writeCrHsiOn, Event.pollHsiRdy], .ok (HSI_FREQ, 0x01))
  | .HSE f => ([Event.writeCrHseOn, Event.pollHseRdy], .ok (f, 0x02))
  | .PLL source target =>
    match pllSolve (pllInputFreq source) target with
    | .error e => ([], .error e)
    | .ok plan =>
      let srcBits : Nat := match source with
        | .HSE _ => 3
        | .HSI16 => 2
      let hseStart : List Event := match source with
        | .HSE _ => [Event.writeCrHseOn, Event.pollHseRdy]
        | .HSI16 => []
      let hseOn : Bool := match source with
        | .HSE _ => true
        | .HSI16 => false
      let hseWait : List Event := match source with
        | .HSE _ => [Event.pollHseRdy]
        | .HSI16 => []
      (Event.writePllCfgr plan.pllrF plan.pllqF plan.plln 3 srcBits ::
        (hseStart ++ (Event.writeCrPllOn hseOn :: (hseWait ++
          [Event.pollPllRdy, Event.writeCcipr 2]))),
       .ok (plan.rOutput, 0x03))

/-- AHB bus frequency derivation (lines 246-253 of init). -/
def ahbFreqCalc (sys_clk : Nat) (pre : AHBPrescaler) : Nat :=
  match pre with
  | .NotDivided => sys_clk
  | pre => sys_clk / (1 <<< (pre.into - 7))

/-- APB bus frequency derivation, returning (peripheral clock, timer clock);
the same computation is performed for each of the two APB domains
(lines 255-273 of init). -/
def apbFreqCalc (ahb_freq : Nat) (pre : APBPrescaler) : Nat × Nat :=
  match pre with
  | .NotDivided => (ahb_freq, ahb_freq)
  | pre =>
    let d := 1 <<< (pre.into - 3)
    let freq := ahb_freq / d
    (freq, freq * 2)

/-- The tail of init after the clock source is activated (lines 236-289):
commit the mux and prescalers, confirm the switch, derive bus frequencies,
run the low-power gate, and publish. -/
def commit (config : Config) (tr0 : List Event) (sys_clk sw : Nat) :
    List Event × Except RccError Clocks :=
  let tr := tr0 ++ [Event.writeCfgr sw config.ahb_pre.into config.apb1_pre.into
    config.apb2_pre.into, Event.pollSws sw]
  let ahb_freq := ahbFreqCalc sys_clk config.ahb_pre
  let apb1 := apbFreqCalc ahb_freq config.apb1_pre
  let apb2 := apbFreqCalc ahb_freq config.apb2_pre
  let clocks : Clocks := ⟨sys_clk, ahb_freq, ahb_freq, apb1.1, apb1.2, apb2.1, apb2.2⟩
  if config.low_power_run then
    if sys_clk > 2000000 then (tr, .error .lowPowerFrequencyExceeded)
    else (tr ++ [Event.writePwrCr1Lpr, Event.publish clocks], .ok clocks)
  else (tr ++ [Event.publish clocks], .ok clocks)

/-- The complete clock configuration routine, from fn init. -/
def init (config : Config) : List Event × Except RccError Clocks :=
  match activate config.mux with
  | (tr, .error e) => (tr, .error e)
  | (tr, .ok (sys_clk, sw)) => commit config tr sys_clk sw


deriving instance DecidableEq for Except

/-- Configuration: HSI16 system clock with low-power run requested. -/
def cfgLpHsi : Config := ⟨ClockSrc.HSI16, .NotDivided, .NotDivided, .NotDivided, true⟩

/-- Configuration: 1 MHz HSE system clock with low-power run requested. -/
def cfgLpHse1 : Config := ⟨ClockSrc.HSE 1000000, .NotDivided, .NotDivided, .NotDivided, true⟩

/-- Configuration: PLL from HSI16 targeting 48 MHz. -/
def cfgPllHsi48 : Config :=
  ⟨ClockSrc.PLL .HSI16 48000000, .NotDivided, .NotDivided, .NotDivided, false⟩

/-- Configuration: PLL from a 16 MHz HSE targeting 48 MHz. -/
def cfgPllHse48 : Config :=
  ⟨ClockSrc.PLL (.HSE 16000000) 48000000, .NotDivided, .NotDivided, .NotDivided, false⟩

/-- The frequency plan published for a 48 MHz system clock with all
prescalers at not-divided. -/
def clocksAll48 : Clocks :=
  ⟨48000000, 48000000, 48000000, 48000000, 48000000, 48000000, 48000000⟩

/-- The PLL plan the solver produces for 16 MHz input and 48 MHz target. -/
def planHsi48 : PllPlan := ⟨4000000, 2, 24, 96000000, 48000000, 2, 0, 0⟩

/-- Trace of init for cfgLpHsi (ending in the low-power abort). -/
def trLpHsi : List Event :=
  [Event.writeCrHsiOn, Event.pollHsiRdy, Event.writeCfgr 1 1 1 1, Event.pollSws 1]

/-- Trace of init for cfgPllHsi48. -/
def trPllHsi48 : List Event :=
  [Event.writePllCfgr 0 0 24 3 2, Event.writeCrPllOn false, Event.pollPllRdy,
   Event.writeCcipr 2, Event.writeCfgr 3 1 1 1, Event.pollSws 3,
   Event.publish clocksAll48]

/-- Trace of init for cfgPllHse48. -/
def trPllHse48 : List Event :=
  [Event.writePllCfgr 0 0 24 3 3, Event.writeCrHseOn, Event.pollHseRdy,
   Event.writeCrPllOn true, Event.pollHseRdy, Event.pollPllRdy,
   Event.writeCcipr 2, Event.writeCfgr 3 1 1 1, Event.pollSws 3,
   Event.publish clocksAll48]


theorem pllqFlag_some {q c : Nat} (h : pllqFlag q = some c) :
    q = 2 ∨ q = 4 ∨ q = 6 ∨ q = 8 := by
  unfold pllqFlag at h
  split at h <;> simp_all

theorem pllrFlag_two {c : Nat} (h : pllrFlag 2 = some c) : c = 0 := by
  simp [pllrFlag] at h
  omega

theorem plln_le_129 {vin n : Nat} (h1 : 2660000 ≤ vin)
    (h2 : vin * n ≤ 344000000) : n ≤ 129 := by
  have h3 : n * 2660000 ≤ n * vin := Nat.mul_le_mul (Nat.le_refl n) h1
  have h4 : n * vin ≤ 344000000 := by
    have := Nat.mul_comm vin n
    omega
  omega

theorem pllSolve_ok {pll_input target_freq : Nat} {plan : PllPlan}
    (h : pllSolve pll_input target_freq = .ok plan) :
    plan.vcoInput = pll_input / 4 ∧
    plan.pllr = 2 ∧
    plan.plln = target_freq * 2 / (pll_input / 4) ∧
    plan.vcoOutput = plan.vcoInput * plan.plln ∧
    plan.rOutput = plan.vcoOutput / 2 ∧
    plan.pllq = plan.vcoOutput / 48000000 ∧
    2660000 ≤ plan.vcoInput ∧ plan.vcoInput ≤ 16000000 ∧
    96000000 ≤ plan.vcoOutput ∧ plan.vcoOutput ≤ 344000000 ∧
    plan.vcoOutput % 48000000 = 0 ∧
    pllqFlag plan.pllq = some plan.pllqF ∧
    plan.pllrF = 0 ∧ plan.plln ≤ 255 := by
  simp only [pllSolve] at h
  split_ifs at h with h1 h2 h3 h4 h5 h6
  · split at h <;> simp at h
  · split at h
    case _ rf qf heqr heqq =>
      have hrf := pllrFlag_two heqr
      subst hrf
      simp only [Except.ok.injEq] at h
      subst h
      refine ⟨rfl, rfl, rfl, rfl, rfl, rfl, ?_, ?_, ?_, ?_, ?_, heqq, rfl, ?_⟩
      · show 2660000 ≤ pll_input / 4
        omega
      · show pll_input / 4 ≤ 16000000
        omega
      · show 96000000 ≤ pll_input / 4 * (target_freq * 2 / (pll_input / 4))
        omega
      · show pll_input / 4 * (target_freq * 2 / (pll_input / 4)) ≤ 344000000
        omega
      · show pll_input / 4 * (target_freq * 2 / (pll_input / 4)) % 48000000 = 0
        omega
      · show target_freq * 2 / (pll_input / 4) ≤ 255
        omega
    case _ => simp at h

theorem pllSolve_never_plln_or_lp (pll_input target_freq : Nat) :
    pllSolve pll_input target_freq ≠ .error .invalidPlln ∧
    pllSolve pll_input target_freq ≠ .error .lowPowerFrequencyExceeded := by
  simp only [pllSolve]
  split_ifs with h1 h2 h3 h4 h5 h6
  · exact ⟨by simp, by simp⟩
  · exact ⟨by simp, by simp⟩
  · exact ⟨by simp, by simp⟩
  · exact ⟨by simp, by simp⟩
  · exact ⟨by simp, by simp⟩
  · have hn := @plln_le_129 (pll_input / 4)
      (target_freq * 2 / (pll_input / 4)) (by omega) (by omega)
    exact absurd h6 (by omega)
  · constructor <;> split <;> simp

theorem pllSolve_error_kinds {pll_input target_freq : Nat} {e : RccError}
    (h : pllSolve pll_input target_freq = .error e) :
    e = .invalidVcoInput ∨ e = .invalidVcoOutput ∨
    e = .unachievable48MHzTap ∨ e = .invalidDivisorCode := by
  have hne := pllSolve_never_plln_or_lp pll_input target_freq
  cases e
  · exact Or.inl rfl
  · exact Or.inr (Or.inl rfl)
  · exact Or.inr (Or.inr (Or.inl rfl))
  · exact Or.inr (Or.inr (Or.inr rfl))
  · exact absurd h hne.1
  · exact absurd h hne.2

theorem occursBefore_append_left {p q : Event → Bool} {l1 : List Event}
    (l2 : List Event) (h : occursBefore p q l1 = true) :
    occursBefore p q (l1 ++ l2) = true := by
  induction l1 with
  | nil => simp [occursBefore] at h
  | cons e l ih =>
    simp only [occursBefore, Bool.or_eq_true, Bool.and_eq_true] at h
    rw [List.cons_append]
    simp only [occursBefore, Bool.or_eq_true, Bool.and_eq_true]
    rcases h with ⟨hp, hq⟩ | h
    · left
      refine ⟨hp, ?_⟩
      rw [List.any_append, hq, Bool.true_or]
    · right
      exact ih h

theorem commit_ok {config : Config} {tr0 : List Event} {sys_clk sw : Nat}
    {tr : List Event} {clocks : Clocks}
    (h : commit config tr0 sys_clk sw = (tr, .ok clocks)) :
    clocks = ⟨sys_clk, ahbFreqCalc sys_clk config.ahb_pre,
      ahbFreqCalc sys_clk config.ahb_pre,
      (apbFreqCalc (ahbFreqCalc sys_clk config.ahb_pre) config.apb1_pre).1,
      (apbFreqCalc (ahbFreqCalc sys_clk config.ahb_pre) config.apb1_pre).2,
      (apbFreqCalc (ahbFreqCalc sys_clk config.ahb_pre) config.apb2_pre).1,
      (apbFreqCalc (ahbFreqCalc sys_clk config.ahb_pre) config.apb2_pre).2⟩ ∧
    (config.low_power_run = true → sys_clk ≤ 2000000) ∧
    ∃ rest, tr = tr0 ++ rest := by
  unfold commit at h
  split_ifs at h with hl hs
  · simp at h
  · simp only [Prod.mk.injEq, Except.ok.injEq] at h
    obtain ⟨htr, hc⟩ := h
    exact ⟨hc.symm, fun _ => by omega, _, htr.symm.trans (List.append_assoc _ _ _)⟩
  · simp only [Prod.mk.injEq, Except.ok.injEq] at h
    obtain ⟨htr, hc⟩ := h
    exact ⟨hc.symm, fun hc2 => absurd hc2 hl, _, htr.symm.trans (List.append_assoc _ _ _)⟩

theorem commit_ok_lpr_event {config : Config} {tr0 : List Event} {sys_clk sw : Nat}
    {tr : List Event} {clocks : Clocks}
    (h : commit config tr0 sys_clk sw = (tr, .ok clocks))
    (hl : config.low_power_run = true) :
    tr.any Event.isWritePwrCr1Lpr = true := by
  unfold commit at h
  split_ifs at h with hs
  · simp at h
  · simp only [Prod.mk.injEq, Except.ok.injEq] at h
    rw [← h.1]
    simp [Event.isWritePwrCr1Lpr]

theorem commit_error {config : Config} {tr0 : List Event} {sys_clk sw : Nat}
    {tr : List Event} {e : RccError}
    (h : commit config tr0 sys_clk sw = (tr, .error e)) :
    e = .lowPowerFrequencyExceeded ∧ config.low_power_run = true ∧
    2000000 < sys_clk ∧
    tr = tr0 ++ [Event.writeCfgr sw config.ahb_pre.into config.apb1_pre.into
      config.apb2_pre.into, Event.pollSws sw] := by
  unfold commit at h
  split_ifs at h with hl hs
  · simp only [Prod.mk.injEq, Except.error.injEq] at h
    exact ⟨h.2.symm, hl, hs, h.1.symm⟩
  · simp at h
  · simp at h

theorem init_eq_commit {config : Config} {tr0 : List Event} {sys_clk sw : Nat}
    (ha : activate config.mux = (tr0, .ok (sys_clk, sw))) :
    init config = commit config tr0 sys_clk sw := by
  unfold init
  rw [ha]

theorem init_eq_error {config : Config} {tr0 : List Event} {e : RccError}
    (ha : activate config.mux = (tr0, .error e)) :
    init config = (tr0, .error e) := by
  unfold init
  rw [ha]

theorem activate_pll_error {source : PLLSource} {target : Nat} {e : RccError}
    (hs : pllSolve (pllInputFreq source) target = .error e) :
    activate (ClockSrc.PLL source target) = ([], .error e) := by
  simp only [activate]
  rw [hs]

theorem activate_pll_hse_ok {f target : Nat} {plan : PllPlan}
    (hs : pllSolve f target = .ok plan) :
    activate (ClockSrc.PLL (.HSE f) target) =
      ([Event.writePllCfgr plan.pllrF plan.pllqF plan.plln 3 3,
        Event.writeCrHseOn, Event.pollHseRdy, Event.writeCrPllOn true,
        Event.pollHseRdy, Event.pollPllRdy, Event.writeCcipr 2],
       .ok (plan.rOutput, 3)) := by
  simp only [activate, pllInputFreq]
  rw [hs]
  simp

theorem activate_pll_hsi_ok {target : Nat} {plan : PllPlan}
    (hs : pllSolve 16000000 target = .ok plan) :
    activate (ClockSrc.PLL .HSI16 target) =
      ([Event.writePllCfgr plan.pllrF plan.pllqF plan.plln 3 2,
        Event.writeCrPllOn false, Event.pollPllRdy, Event.writeCcipr 2],
       .ok (plan.rOutput, 3)) := by
  simp only [activate, pllInputFreq]
  rw [hs]
  simp


theorem activate_pll_ok_result {source : PLLSource} {target : Nat} {plan : PllPlan}
    (hs : pllSolve (pllInputFreq source) target = .ok plan) :
    ∃ tr0, activate (ClockSrc.PLL source target) = (tr0, .ok (plan.rOutput, 3)) := by
  cases source with
  | HSE f => exact ⟨_, activate_pll_hse_ok hs⟩
  | HSI16 => exact ⟨_, activate_pll_hsi_ok hs⟩

/-- Claim C1, counterexample: on the configuration HSI16 with low-power run
requested (system clock 16 MHz), init fails with LowPowerFrequencyExceeded,
yet its trace already contains hardware register writes, among them the
system clock mux/prescaler register write and the confirmed clock switch. -/
theorem c1_counterexample :
    (init cfgLpHsi).2 = .error .lowPowerFrequencyExceeded ∧
    (init cfgLpHsi).1.any Event.isRegWrite = true ∧
    (init cfgLpHsi).1.any Event.isWriteCfgr = true ∧
    (init cfgLpHsi).1.any Event.isPollSws = true := by
  decide

/-- Claim C1, amended: every init failure other than
LowPowerFrequencyExceeded (the four solver validation kinds) is raised
before any hardware interaction at all (empty trace), while
LowPowerFrequencyExceeded is raised after the system clock mux/prescaler
register write and the confirmed clock switch, though before the
power-control register write and before the frequency plan is published. -/
theorem c1_validation_before_commit :
    ∀ (config : Config) (tr : List Event) (e : RccError),
      init config = (tr, .error e) →
      (e ≠ .lowPowerFrequencyExceeded → tr = []) ∧
      (e = .lowPowerFrequencyExceeded →
        tr.any Event.isWriteCfgr = true ∧ tr.any Event.isPollSws = true ∧
        tr.any Event.isWritePwrCr1Lpr = false ∧
        tr.any Event.isPublish = false) := by
  intro config tr e h
  obtain ⟨mux, ahb, a1, a2, lpr⟩ := config
  cases mux with
  | HSI16 =>
    rw [init_eq_commit (rfl :
      activate (Config.mk ClockSrc.HSI16 ahb a1 a2 lpr).mux =
        ([Event.writeCrHsiOn, Event.pollHsiRdy], .ok (HSI_FREQ, 1)))] at h
    obtain ⟨he, hlp, hsys, htr⟩ := commit_error h
    subst he
    subst htr
    refine ⟨fun hne => absurd rfl hne, fun _ => ?_⟩
    simp [Event.isWriteCfgr, Event.isPollSws, Event.isWritePwrCr1Lpr,
      Event.isPublish]
  | HSE f =>
    rw [init_eq_commit (rfl :
      activate (Config.mk (ClockSrc.HSE f) ahb a1 a2 lpr).mux =
        ([Event.writeCrHseOn, Event.pollHseRdy], .ok (f, 2)))] at h
    obtain ⟨he, hlp, hsys, htr⟩ := commit_error h
    subst he
    subst htr
    refine ⟨fun hne => absurd rfl hne, fun _ => ?_⟩
    simp [Event.isWriteCfgr, Event.isPollSws, Event.isWritePwrCr1Lpr,
      Event.isPublish]
  | PLL source target =>
    cases hsolve : pllSolve (pllInputFreq source) target with
    | error e0 =>
      rw [init_eq_error (activate_pll_error hsolve)] at h
      simp only [Prod.mk.injEq, Except.error.injEq] at h
      obtain ⟨htr, he⟩ := h
      subst htr
      subst he
      refine ⟨fun _ => rfl, fun he => ?_⟩
      rcases pllSolve_error_kinds hsolve with h' | h' | h' | h' <;> simp_all
    | ok plan =>
      cases source with
      | HSE f =>
        rw [init_eq_commit (activate_pll_hse_ok hsolve)] at h
        obtain ⟨he, hlp, hsys, htr⟩ := commit_error h
        subst he
        subst htr
        refine ⟨fun hne => absurd rfl hne, fun _ => ?_⟩
        simp [Event.isWriteCfgr, Event.isPollSws, Event.isWritePwrCr1Lpr,
          Event.isPublish]
      | HSI16 =>
        rw [init_eq_commit (activate_pll_hsi_ok hsolve)] at h
        obtain ⟨he, hlp, hsys, htr⟩ := commit_error h
        subst he
        subst htr
        refine ⟨fun hne => absurd rfl hne, fun _ => ?_⟩
        simp [Event.isWriteCfgr, Event.isPollSws, Event.isWritePwrCr1Lpr,
          Event.isPublish]

/-- Claim C1, witness: the amended theorem applied to the concrete
low-power failure of cfgLpHsi. -/
theorem c1_witness :
    trLpHsi.any Event.isWriteCfgr = true ∧ trLpHsi.any Event.isPollSws = true ∧
    trLpHsi.any Event.isWritePwrCr1Lpr = false ∧
    trLpHsi.any Event.isPublish = false :=
  (c1_validation_before_commit cfgLpHsi trLpHsi .lowPowerFrequencyExceeded
    (by decide)).2 rfl


/-- Claim C2, evaluation at the failing inputs: the AHB calculator divides
by 1 shifted left by (code minus 7), which yields division by 32, 64, 128
and 256 for the variants named Div64, Div128, Div256 and Div512 (the
hardware code table has no divide-by-32 step, so the nominal divisions 64,
128, 256, 512 are not what the code computes); the variants up to Div16
are nominal. -/
theorem c2_ahb_divisor_eval :
    ahbFreqCalc 64000000 AHBPrescaler.Div64 = 2000000 ∧
    ahbFreqCalc 512000000 AHBPrescaler.Div64 = 16000000 ∧
    ahbFreqCalc 512000000 AHBPrescaler.Div128 = 8000000 ∧
    ahbFreqCalc 512000000 AHBPrescaler.Div256 = 4000000 ∧
    ahbFreqCalc 512000000 AHBPrescaler.Div512 = 2000000 ∧
    ∀ sys_clk : Nat,
      ahbFreqCalc sys_clk AHBPrescaler.NotDivided = sys_clk ∧
      ahbFreqCalc sys_clk AHBPrescaler.Div2 = sys_clk / 2 ∧
      ahbFreqCalc sys_clk AHBPrescaler.Div4 = sys_clk / 4 ∧
      ahbFreqCalc sys_clk AHBPrescaler.Div8 = sys_clk / 8 ∧
      ahbFreqCalc sys_clk AHBPrescaler.Div16 = sys_clk / 16 :=
  ⟨by decide, by decide, by decide, by decide, by decide,
   fun _ => ⟨rfl, rfl, rfl, rfl, rfl⟩⟩

/-- Claim C3: whenever init succeeds with a PLL clock source, recomputing
the VCO input as input divided by 4, the multiplier N as target times 2
divided by the VCO input, and the VCO output as their product reproduces
the published system frequency as VCO output divided by 2, and both VCO
values lie in their valid ranges. -/
theorem c3_solver_validity :
    ∀ (source : PLLSource) (target : Nat) (config : Config)
      (tr : List Event) (clocks : Clocks),
      config.mux = ClockSrc.PLL source target →
      init config = (tr, .ok clocks) →
      clocks.sys =
        pllInputFreq source / 4 * (target * 2 / (pllInputFreq source / 4)) / 2 ∧
      2660000 ≤ pllInputFreq source / 4 ∧
      pllInputFreq source / 4 ≤ 16000000 ∧
      96000000 ≤ pllInputFreq source / 4 * (target * 2 / (pllInputFreq source / 4)) ∧
      pllInputFreq source / 4 * (target * 2 / (pllInputFreq source / 4)) ≤ 344000000 := by
  intro source target config tr clocks hm h
  cases hsolve : pllSolve (pllInputFreq source) target with
  | error e0 =>
    have ha : activate config.mux = ([], .error e0) := by
      rw [hm]
      exact activate_pll_error hsolve
    rw [init_eq_error ha] at h
    simp at h
  | ok plan =>
    obtain ⟨tr0, ha0⟩ := activate_pll_ok_result hsolve
    have ha : activate config.mux = (tr0, .ok (plan.rOutput, 3)) := by
      rw [hm]
      exact ha0
    rw [init_eq_commit ha] at h
    obtain ⟨hc, -, -⟩ := commit_ok h
    have hsys : clocks.sys = plan.rOutput := by rw [hc]
    obtain ⟨h1, h2, h3, h4, h5, h6, h7, h8, h9, h10, h11, h12, h13, h14⟩ :=
      pllSolve_ok hsolve
    refine ⟨?_, ?_, ?_, ?_, ?_⟩
    · rw [hsys, h5, h4, h1, h3]
    · rw [← h1]
      exact h7
    · rw [← h1]
      exact h8
    · have h9' := h9
      rw [h4, h1, h3] at h9'
      exact h9'
    · have h10' := h10
      rw [h4, h1, h3] at h10'
      exact h10'

/-- Claim C3, witness: the theorem applied to the successful configuration
PLL from HSI16 targeting 48 MHz. -/
theorem c3_witness :
    clocksAll48.sys =
      pllInputFreq PLLSource.HSI16 / 4 *
        (48000000 * 2 / (pllInputFreq PLLSource.HSI16 / 4)) / 2 ∧
    2660000 ≤ pllInputFreq PLLSource.HSI16 / 4 ∧
    pllInputFreq PLLSource.HSI16 / 4 ≤ 16000000 ∧
    96000000 ≤ pllInputFreq PLLSource.HSI16 / 4 *
      (48000000 * 2 / (pllInputFreq PLLSource.HSI16 / 4)) ∧
    pllInputFreq PLLSource.HSI16 / 4 *
      (48000000 * 2 / (pllInputFreq PLLSource.HSI16 / 4)) ≤ 344000000 :=
  c3_solver_validity PLLSource.HSI16 48000000 cfgPllHsi48 trPllHsi48 clocksAll48
    rfl (by decide)

/-- Claim C4, counterexample: on the successful configuration PLL from a
16 MHz HSE targeting 48 MHz, no poll of the HSE ready flag occurs before
the PLL configuration register write; the PLL configuration fields are
written first, so the claimed oscillator-ready-before-configuration order
is false. -/
theorem c4_counterexample :
    (init cfgPllHse48).2 = .ok clocksAll48 ∧
    occursBefore Event.isPollHseRdy Event.isWritePllCfgr
      (init cfgPllHse48).1 = false := by
  decide

/-- Claim C4, amended: for a PLL clock source fed by the external
oscillator, init writes the PLL multiplier/divider configuration fields
and tap-enable bits first, then sets the HSE enable bit, then observes the
HSE ready flag, then enables the PLL, and then polls the PLL lock flag. -/
theorem c4_pll_sequencing :
    ∀ (f target : Nat) (config : Config) (tr : List Event) (clocks : Clocks),
      config.mux = ClockSrc.PLL (.HSE f) target →
      init config = (tr, .ok clocks) →
      occursBefore Event.isWritePllCfgr Event.isWriteCrHseOn tr = true ∧
      occursBefore Event.isWriteCrHseOn Event.isPollHseRdy tr = true ∧
      occursBefore Event.isPollHseRdy Event.isWriteCrPllOn tr = true ∧
      occursBefore Event.isWriteCrPllOn Event.isPollPllRdy tr = true := by
  intro f target config tr clocks hm h
  cases hsolve : pllSolve f target with
  | error e0 =>
    have ha : activate config.mux = ([], .error e0) := by
      rw [hm]
      exact activate_pll_error hsolve
    rw [init_eq_error ha] at h
    simp at h
  | ok plan =>
    have ha : activate config.mux =
        ([Event.writePllCfgr plan.pllrF plan.pllqF plan.plln 3 3,
          Event.writeCrHseOn, Event.pollHseRdy, Event.writeCrPllOn true,
          Event.pollHseRdy, Event.pollPllRdy, Event.writeCcipr 2],
         .ok (plan.rOutput, 3)) := by
      rw [hm]
      exact activate_pll_hse_ok hsolve
    rw [init_eq_commit ha] at h
    obtain ⟨-, -, rest, htr⟩ := commit_ok h
    subst htr
    refine ⟨?_, ?_, ?_, ?_⟩ <;>
      · apply occursBefore_append_left
        simp [occursBefore, Event.isWritePllCfgr, Event.isWriteCrHseOn,
          Event.isPollHseRdy, Event.isWriteCrPllOn, Event.isPollPllRdy]

/-- Claim C4, witness: the amended ordering applied to the concrete trace
of the PLL-from-HSE configuration. -/
theorem c4_witness :
    occursBefore Event.isWritePllCfgr Event.isWriteCrHseOn trPllHse48 = true ∧
    occursBefore Event.isWriteCrHseOn Event.isPollHseRdy trPllHse48 = true ∧
    occursBefore Event.isPollHseRdy Event.isWriteCrPllOn trPllHse48 = true ∧
    occursBefore Event.isWriteCrPllOn Event.isPollPllRdy trPllHse48 = true :=
  c4_pll_sequencing 16000000 48000000 cfgPllHse48 trPllHse48 clocksAll48
    rfl (by decide)

/-- Claim C5: when low-power run is requested and the activated system
frequency is at most 2 MHz, init succeeds and its trace contains the
power-control register low-power-bit write; when the activated system
frequency exceeds 2 MHz, init fails with LowPowerFrequencyExceeded. -/
theorem c5_low_power_gate :
    ∀ (config : Config) (tr0 : List Event) (sys_clk sw : Nat),
      activate config.mux = (tr0, .ok (sys_clk, sw)) →
      config.low_power_run = true →
      (sys_clk ≤ 2000000 →
        (∃ clocks, (init config).2 = .ok clocks) ∧
        (init config).1.any Event.isWritePwrCr1Lpr = true) ∧
      (2000000 < sys_clk →
        (init config).2 = .error .lowPowerFrequencyExceeded) := by
  intro config tr0 sys_clk sw ha hl
  rw [init_eq_commit ha]
  constructor
  · intro hle
    unfold commit
    split_ifs with hs
    · omega
    · exact ⟨⟨_, rfl⟩, by simp [Event.isWritePwrCr1Lpr]⟩
  · intro hgt
    unfold commit
    split_ifs
    rfl

/-- Claim C5, witness: the success half at a 1 MHz HSE system clock with
low-power run, and the failure half at the 16 MHz HSI16 system clock. -/
theorem c5_witness :
    ((∃ clocks, (init cfgLpHse1).2 = .ok clocks) ∧
      (init cfgLpHse1).1.any Event.isWritePwrCr1Lpr = true) ∧
    (init cfgLpHsi).2 = .error .lowPowerFrequencyExceeded :=
  ⟨(c5_low_power_gate cfgLpHse1 [Event.writeCrHseOn, Event.pollHseRdy]
      1000000 2 rfl rfl).1 (by decide),
   (c5_low_power_gate cfgLpHsi [Event.writeCrHsiOn, Event.pollHsiRdy]
      16000000 1 rfl rfl).2 (by decide)⟩

/-- Claim C6: the APB bus calculator returns the nominal pair for every
prescaler variant: not-divided gives (ahb, ahb), and each dividing variant
k in 2, 4, 8, 16 gives the peripheral clock ahb divided by k with the
timer clock exactly twice the peripheral clock; this computation is
applied to each of the two APB domains independently. -/
theorem c6_apb_calculator :
    ∀ ahb_freq : Nat,
      apbFreqCalc ahb_freq APBPrescaler.NotDivided = (ahb_freq, ahb_freq) ∧
      apbFreqCalc ahb_freq APBPrescaler.Div2 = (ahb_freq / 2, 2 * (ahb_freq / 2)) ∧
      apbFreqCalc ahb_freq APBPrescaler.Div4 = (ahb_freq / 4, 2 * (ahb_freq / 4)) ∧
      apbFreqCalc ahb_freq APBPrescaler.Div8 = (ahb_freq / 8, 2 * (ahb_freq / 8)) ∧
      apbFreqCalc ahb_freq APBPrescaler.Div16 = (ahb_freq / 16, 2 * (ahb_freq / 16)) := by
  intro a
  refine ⟨rfl, ?_, ?_, ?_, ?_⟩
  · show (a / 2, a / 2 * 2) = (a / 2, 2 * (a / 2))
    exact congrArg (Prod.mk (a / 2)) (Nat.mul_comm (a / 2) 2)
  · show (a / 4, a / 4 * 2) = (a / 4, 2 * (a / 4))
    exact congrArg (Prod.mk (a / 4)) (Nat.mul_comm (a / 4) 2)
  · show (a / 8, a / 8 * 2) = (a / 8, 2 * (a / 8))
    exact congrArg (Prod.mk (a / 8)) (Nat.mul_comm (a / 8) 2)
  · show (a / 16, a / 16 * 2) = (a / 16, 2 * (a / 16))
    exact congrArg (Prod.mk (a / 16)) (Nat.mul_comm (a / 16) 2)

/-- Claim C7: the end-to-end example PLL from HSI16 at 16 MHz targeting
48 MHz: the solver succeeds with VCO input 4 MHz, R equal 2, N equal 24,
VCO output 96 MHz, Q equal 2, and init publishes a system frequency of
exactly 48 MHz. -/
theorem c7_end_to_end :
    pllSolve 16000000 48000000 = .ok planHsi48 ∧
    planHsi48.vcoInput = 4000000 ∧ planHsi48.pllr = 2 ∧
    planHsi48.plln = 24 ∧ planHsi48.vcoOutput = 96000000 ∧
    planHsi48.pllq = 2 ∧ planHsi48.rOutput = 48000000 ∧
    (init cfgPllHsi48).2 = .ok clocksAll48 ∧ clocksAll48.sys = 48000000 := by
  decide

/-- Claim C8: the end-to-end example PLL from HSI16 at 16 MHz targeting
1 MHz: the multiplier N truncates to 0, the VCO output is 0, and the
solver fails with InvalidVcoOutput; the VCO input 4 MHz passes the input
range check, and no special case intercepts the zero multiplier. -/
theorem c8_low_target_truncation :
    pllSolve 16000000 1000000 = .error .invalidVcoOutput ∧
    1000000 * 2 / (16000000 / 4) = 0 ∧
    16000000 / 4 * (1000000 * 2 / (16000000 / 4)) = 0 ∧
    2660000 ≤ 16000000 / 4 ∧ 16000000 / 4 ≤ 16000000 := by
  decide

/-- Claim C9: for inputs passing the VCO input lower bound and the VCO
output upper bound, the multiplier N is at most 129, hence below 256, so
the conversion of N into the 8-bit PLLN field never fails: the solver can
never return the invalidPlln error. -/
theorem c9_plln_fits_u8 :
    ∀ (pll_input target_freq : Nat),
      (2660000 ≤ pll_input / 4 →
        pll_input / 4 * (target_freq * 2 / (pll_input / 4)) ≤ 344000000 →
        target_freq * 2 / (pll_input / 4) ≤ 129 ∧
        target_freq * 2 / (pll_input / 4) < 256) ∧
      pllSolve pll_input target_freq ≠ .error .invalidPlln := by
  intro i t
  constructor
  · intro h1 h2
    have := @plln_le_129 (i / 4) (t * 2 / (i / 4)) h1 h2
    omega
  · exact (pllSolve_never_plln_or_lp i t).1

/-- Claim C9, witness: the bound discharged at the 16 MHz input, 48 MHz
target instance. -/
theorem c9_witness :
    (48000000 * 2 / (16000000 / 4) ≤ 129 ∧
      48000000 * 2 / (16000000 / 4) < 256) ∧
    pllSolve 16000000 48000000 ≠ .error .invalidPlln :=
  ⟨(c9_plln_fits_u8 16000000 48000000).1 (by decide) (by decide),
   (c9_plln_fits_u8 16000000 48000000).2⟩

/-- Claim C10: every solver success has Q divisor 2, 4 or 6, VCO output
exactly 96, 192 or 288 MHz, and main output exactly 48, 96 or 144 MHz;
the VCO outputs 144, 240 and 336 MHz pass the 48 MHz divisibility check
but their odd quotients are rejected by the Q-code encoding, as the
concrete run at 12 MHz input and 72 MHz target (VCO output 144 MHz)
shows. -/
theorem c10_q_divisor_invariant :
    (∀ (pll_input target_freq : Nat) (plan : PllPlan),
      pllSolve pll_input target_freq = .ok plan →
      (plan.pllq = 2 ∨ plan.pllq = 4 ∨ plan.pllq = 6) ∧
      (plan.vcoOutput = 96000000 ∨ plan.vcoOutput = 192000000 ∨
        plan.vcoOutput = 288000000) ∧
      (plan.rOutput = 48000000 ∨ plan.rOutput = 96000000 ∨
        plan.rOutput = 144000000)) ∧
    (144000000 % 48000000 = 0 ∧ pllqFlag 3 = none) ∧
    (240000000 % 48000000 = 0 ∧ pllqFlag 5 = none) ∧
    (336000000 % 48000000 = 0 ∧ pllqFlag 7 = none) ∧
    pllSolve 12000000 72000000 = .error .invalidDivisorCode := by
  refine ⟨?_, by decide, by decide, by decide, by decide⟩
  intro i t plan h
  obtain ⟨h1, h2, h3, h4, h5, h6, h7, h8, h9, h10, h11, h12, h13, h14⟩ :=
    pllSolve_ok h
  have hq := pllqFlag_some h12
  have hvq : 48000000 * plan.pllq = plan.vcoOutput := by
    rw [h6]
    omega
  rcases hq with hq | hq | hq | hq <;>
    exact ⟨by omega, by omega, by omega⟩

/-- Claim C10, witness: the invariant at the 16 MHz input, 48 MHz target
solver success. -/
theorem c10_witness :
    (planHsi48.pllq = 2 ∨ planHsi48.pllq = 4 ∨ planHsi48.pllq = 6) ∧
    (planHsi48.vcoOutput = 96000000 ∨ planHsi48.vcoOutput = 192000000 ∨
      planHsi48.vcoOutput = 288000000) ∧
    (planHsi48.rOutput = 48000000 ∨ planHsi48.rOutput = 96000000 ∨
      planHsi48.rOutput = 144000000) :=
  c10_q_divisor_invariant.1 16000000 48000000 planHsi48 (by decide)

end G4Rcc
